import Mathlib

/-!
Shallow embedding of the AI-excel-interviewer backend
(src/backend/app/services/llm_service.py, src/backend/app/core/config.py,
src/backend/app/api/routes/interview.py) and proofs about the claims of the
specification. Timestamps, session identifiers and the outcome of the single
outbound HTTP call are inputs of the embedded operations: the Python code
obtains them from datetime.now(), uuid.uuid4() and the network, none of which
is deterministic, so they are modelled as explicit parameters.
-/

namespace AIExcelInterviewer

/-! ### String containment helpers

Python's `kw in s` substring test, embedded over lists of characters. -/

/-- `charsLead needle hay` is true when `needle` occurs at the very start of
`hay` (the list-of-characters form of a leading-substring test). -/
def charsLead : List Char → List Char → Bool
  | [], _ => true
  | _ :: _, [] => false
  | a :: as, b :: bs => a == b && charsLead as bs

/-- `charsHasSub needle hay` is true when `needle` occurs contiguously
somewhere in `hay`; this is Python's `needle in hay` on strings. -/
def charsHasSub (needle : List Char) : List Char → Bool
  | [] => charsLead needle []
  | c :: cs => charsLead needle (c :: cs) || charsHasSub needle cs

/-- `strContainsSub hay needle`: Python's `needle in hay` substring test. -/
def strContainsSub (hay needle : String) : Bool :=
  charsHasSub needle.toList hay.toList

/-- Python's `str.lower()`, character by character. `Char.toLower` lowers
exactly the basic-latin letters, which covers every character appearing in
the prompts and keywords of this code base. -/
def strLower (s : String) : String :=
  String.mk (s.toList.map Char.toLower)

/-! ### LLM service (src/backend/app/services/llm_service.py) -/

/-- The outcome of the one outbound HTTP attempt made by
`LLMService._call_ollama`: it either raises `httpx.TimeoutException`,
raises `httpx.ConnectError`, raises some other exception (JSON decoding,
etc.), or yields an HTTP response with a status code and, when the decoded
body carries `message.content`, that content string. -/
inductive OllamaOutcome where
  | timeout : OllamaOutcome
  | connectError : OllamaOutcome
  | otherException : OllamaOutcome
  | response (statusCode : Nat) (content : Option String) : OllamaOutcome
deriving DecidableEq, Repr

/-- The canned welcome text of `_fallback_response` (keyword "welcome"/"greet"). -/
def welcomeFallbackText : String :=
  "Welcome to the AI Excel Interviewer! \n\nI\x27m here to assess your Excel skills through a series of questions and practical tasks. This interview will take about 20-30 minutes and will cover:\n\n- Formulas and Functions (VLOOKUP, HLOOKUP, INDEX/MATCH)\n- Data Analysis and Pivot Tables  \n- Charts and Visualization\n- Data Validation and Formatting\n- Advanced Excel Features\n\nAre you ready to begin? Let\x27s start with a fundamental question about Excel formulas."

/-- The canned pivot-table question of `_fallback_response` (keyword "vlookup"). -/
def vlookupFallbackText : String :=
  "Excellent! VLOOKUP is indeed a fundamental Excel function. \n\nLet\x27s move to the next area: **Pivot Tables**\n\nHere\x27s your next question: You have a large dataset with sales data containing columns for Date, Salesperson, Product, Region, and Sales Amount. You need to create a summary showing total sales by region and by month.\n\nHow would you approach this using Excel? Please describe the steps you would take to create an effective pivot table for this analysis."

/-- The canned advanced-formula question of `_fallback_response` (keyword "pivot"). -/
def pivotFallbackText : String :=
  "Great approach to pivot tables! \n\nNow let\x27s test your formula skills: **Advanced Formulas**\n\nQuestion: You need to create a commission calculation with these rules:\n- Sales under $5,000: 2% commission\n- Sales $5,000 to $15,000: 5% commission  \n- Sales over $15,000: 8% commission\n\nWhat Excel formula would you write to calculate commission for a sales amount in cell B2? Please provide the complete formula."

/-- The generic encouragement plus data-validation question of
`_fallback_response` (no keyword matched). -/
def defaultFallbackText : String :=
  "Thank you for your response. That shows good Excel knowledge!\n\nLet me ask you about another important Excel feature. How comfortable are you with data validation and ensuring data quality in Excel spreadsheets? \n\nCan you describe a situation where you would use data validation, and what specific validation rules you might implement?"

/-- The fixed string returned by `_call_ollama` on `httpx.TimeoutException`. -/
def timeoutFallbackText : String :=
  "I\x27m taking longer than expected to respond. Let me try a different approach."

/-- The default used when a 200 response body carries no `message.content`. -/
def missingContentText : String :=
  "I\x27m sorry, I couldn\x27t generate a response."

/-- `LLMService._fallback_response`: lower-cases the prompt and walks the
keyword ladder welcome/greet, then vlookup, then pivot, else the generic text. -/
def fallbackResponse (prompt : String) : String :=
  let prompt_lower := strLower prompt
  if strContainsSub prompt_lower "welcome" || strContainsSub prompt_lower "greet" then
    welcomeFallbackText
  else if strContainsSub prompt_lower "vlookup" then
    vlookupFallbackText
  else if strContainsSub prompt_lower "pivot" then
    pivotFallbackText
  else
    defaultFallbackText

/-- `LLMService._call_ollama`: a single HTTP attempt whose outcome is the
`outcome` parameter. A 200 response returns `message.content` (or a default
when absent); any other status returns the keyword fallback; a timeout returns
a fixed apology string; a connection error or any other exception returns the
keyword fallback. The optional system message only alters the outbound request
body, never the returned string, so it is not a parameter here. Totality of
this function is the embedding of the fact that every exception of the attempt
is caught inside `_call_ollama`. -/
def callOllama (prompt : String) (outcome : OllamaOutcome) : String :=
  match outcome with
  | OllamaOutcome.response statusCode content =>
      if statusCode == 200 then
        content.getD missingContentText
      else
        fallbackResponse prompt
  | OllamaOutcome.timeout => timeoutFallbackText
  | OllamaOutcome.connectError => fallbackResponse prompt
  | OllamaOutcome.otherException => fallbackResponse prompt

/-- `LLMService._call_openai`: a placeholder returning a fixed string. -/
def callOpenai : String :=
  "OpenAI integration not configured. Using local LLM mode."

/-- `LLMService.generate_response`: dispatches on `use_local` (True in the
shipped configuration) between the Ollama call and the OpenAI placeholder. -/
def generate_response (use_local : Bool) (prompt : String)
    (outcome : OllamaOutcome) : String :=
  if use_local then callOllama prompt outcome else callOpenai

/-- True exactly on the failure modes of the outbound call: timeout,
connection failure, any other exception, or a non-success HTTP status. -/
def outcomeIsFailure : OllamaOutcome → Bool
  | OllamaOutcome.timeout => true
  | OllamaOutcome.connectError => true
  | OllamaOutcome.otherException => true
  | OllamaOutcome.response statusCode _ => statusCode != 200

/-! ### Configuration (src/backend/app/core/config.py) -/

/-- The value met by the `allowed_origins` field validator: a string, a list
of strings, or anything else (malformed). -/
inductive ConfigValue where
  | str (s : String) : ConfigValue
  | list (l : List String) : ConfigValue
  | other : ConfigValue
deriving DecidableEq, Repr

/-- `Settings.parse_allowed_origins`: a string is split on commas and each
piece kept stripped when its stripped form is non-empty; a list is kept as is;
anything else falls back to the default pair of localhost origins. -/
def parse_allowed_origins : ConfigValue → List String
  | ConfigValue.str s =>
      (s.split (fun c => c == ',')).filterMap
        (fun origin => if origin.trim = "" then none else some origin.trim)
  | ConfigValue.list l => l
  | ConfigValue.other => ["http://localhost:3000", "http://localhost:5173"]

/-! ### Session store (src/backend/app/api/routes/interview.py)

The module-level dicts `active_sessions` and `chat_history` are embedded as
association lists from session id to value; Python dict assignment replaces
the binding in place when the key exists and appends it otherwise. -/

/-- `m[k]` / `m.get(k)` lookup on the embedded dict. -/
def lookupKey {α : Type} : List (String × α) → String → Option α
  | [], _ => none
  | (k2, v) :: rest, k => if k2 = k then some v else lookupKey rest k

/-- `m[k] = v` assignment on the embedded dict. -/
def setKey {α : Type} : List (String × α) → String → α → List (String × α)
  | [], k, v => [(k, v)]
  | (k2, v2) :: rest, k, v =>
      if k2 = k then (k2, v) :: rest else (k2, v2) :: setKey rest k v

/-- One value of `active_sessions`: the `session_data` dict created by
`start_interview`, possibly mutated later. The `completed_at` key does not
exist until `generate_report` assigns it, hence the `Option`. -/
structure SessionData where
  session_id : String
  candidate_email : String
  candidate_name : String
  status : String
  started_at : String
  current_question : Nat
  completed_at : Option String
deriving DecidableEq, Repr

/-- One entry of a `chat_history` list. -/
structure ChatEntry where
  role : String
  message : String
  timestamp : String
deriving DecidableEq, Repr

/-- The whole mutable module state: both dicts. -/
structure ServerState where
  active_sessions : List (String × SessionData)
  chat_history : List (String × List ChatEntry)
deriving DecidableEq, Repr

/-- The `HTTPException(status_code, detail)` raised by the handlers. -/
structure HTTPError where
  status_code : Nat
  detail : String
deriving DecidableEq, Repr

/-! ### Prompt construction (f-strings of the route handlers) -/

/-- The welcome prompt f-string of `start_interview`. -/
def welcomePrompt (candidate_name : String) : String :=
  "\n        You are an AI interviewer conducting an Excel skills assessment.\n        Greet the candidate " ++ candidate_name ++ " professionally and explain:\n        1. This is a technical interview focused on Excel skills\n        2. The interview will take about 20-30 minutes  \n        3. They\x27ll answer questions and complete practical Excel tasks\n        4. Ask if they\x27re ready to begin\n        Keep it warm but professional, under 100 words.\n        "

/-- The next-question prompt f-string of `handle_chat_message`. -/
def chatResponsePrompt (message : String) : String :=
  "\n        You are interviewing a candidate for Excel skills.\n        Previous context: The candidate just said: \"" ++ message ++ "\"\n        \n        Based on their response, provide:\n        1. Brief acknowledgment of their answer\n        2. The next appropriate Excel question\n        3. Clear instructions for what they should explain or demonstrate\n        \n        Keep responses professional and encouraging. Progress through different Excel topics like formulas, pivot tables, charts, data validation, etc.\n        "

/-- The report prompt f-string of `generate_report`. -/
def reportPrompt (candidate_email : String) (current_question : Nat) : String :=
  "\n    Generate a comprehensive Excel skills assessment report:\n    \n    Candidate: " ++ candidate_email ++ "\n    Session Duration: " ++ toString current_question ++ " questions answered\n    \n    Based on the interview conversation, provide:\n    1. Executive Summary (2-3 sentences)\n    2. Technical Skills Assessment (strengths observed)  \n    3. Areas for Improvement\n    4. Overall Recommendation (Strong/Moderate/Needs Development)\n    5. Specific Excel topics to focus on for improvement\n    \n    Be professional and constructive in your assessment.\n    "

/-! ### Route handlers (src/backend/app/api/routes/interview.py)

Each handler takes the current module state and the non-deterministic inputs
(fresh uuid, `datetime.now()` readings, outcome of the one LLM network call)
as parameters, and returns either an `HTTPError` or the JSON payload paired
with the post-call module state. -/

/-- Response payload of `POST /start`. -/
structure StartResponse where
  session_id : String
  status : String
  welcome_message : String
  candidate_email : String
deriving DecidableEq, Repr

/-- Response payload of `POST /chat/message`. -/
structure ChatResponse where
  response : String
  session_id : String
  question_number : Nat
deriving DecidableEq, Repr

/-- The `progress` sub-object of the status payload. The percentage is the
exact rational value of the Python float expression `min(100, q / 5 * 100)`
(exact for every value the code produces, since q / 5 * 100 rounds to the
nearest double, which is the integer itself for multiples of 20). -/
structure Progress where
  current_question : Nat
  total_questions : Nat
  completion_percentage : ℚ
deriving DecidableEq, Repr

/-- Response payload of `GET /status/{session_id}`. -/
structure StatusResponse where
  session_id : String
  status : String
  progress : Progress
  started_at : String
  candidate_email : String
  message_count : Nat
deriving DecidableEq, Repr

/-- Response payload of `GET /report/{session_id}`. -/
structure ReportResponse where
  session_id : String
  candidate_email : String
  status : String
  report : String
  questions_answered : Nat
  generated_at : String
deriving DecidableEq, Repr

/-- `start_interview`: creates the session dict with status "active" and
counter 0, creates the empty chat history, asks the LLM for a welcome
message, and returns the start payload. `session_id` stands for the fresh
`str(uuid.uuid4())` and `now` for `datetime.now().isoformat()`. The
`candidate_name` parameter carries the request field, whose Pydantic default
is "Test Candidate". The handler's try/except can only surface exceptions of
the body, and the body raises none once the LLM call absorbs its own. -/
def start_interview (st : ServerState) (session_id candidate_email candidate_name now : String)
    (llm : OllamaOutcome) : Except HTTPError (StartResponse × ServerState) :=
  let session_data : SessionData :=
    { session_id := session_id
      candidate_email := candidate_email
      candidate_name := candidate_name
      status := "active"
      started_at := now
      current_question := 0
      completed_at := none }
  let st1 : ServerState :=
    { active_sessions := setKey st.active_sessions session_id session_data
      chat_history := setKey st.chat_history session_id [] }
  let welcome_message := generate_response true (welcomePrompt candidate_name) llm
  Except.ok
    ({ session_id := session_id
       status := "started"
       welcome_message := welcome_message
       candidate_email := candidate_email }, st1)

/-- `handle_chat_message`: 404 when the session id is absent from
`active_sessions`; otherwise appends the user message to the history, asks
the LLM for the next question, appends the assistant reply, increments the
session's question counter, and returns the reply with the updated counter.
`userTs` and `aiTs` stand for the two `datetime.now().isoformat()` readings.
A missing `chat_history` key would raise `KeyError`, caught by the handler's
generic except clause as a 500; that branch is unreachable from the routes,
which create both keys together. -/
def handle_chat_message (st : ServerState) (session_id message userTs aiTs : String)
    (llm : OllamaOutcome) : Except HTTPError (ChatResponse × ServerState) :=
  match lookupKey st.active_sessions session_id with
  | none => Except.error { status_code := 404, detail := "Session not found" }
  | some session =>
      match lookupKey st.chat_history session_id with
      | none =>
          Except.error
            { status_code := 500
              detail := "Failed to process message: \x27" ++ session_id ++ "\x27" }
      | some hist =>
          let hist1 := hist ++ [{ role := "user", message := message, timestamp := userTs }]
          let ai_response := generate_response true (chatResponsePrompt message) llm
          let hist2 :=
            hist1 ++ [{ role := "assistant", message := ai_response, timestamp := aiTs }]
          let session2 := { session with current_question := session.current_question + 1 }
          let st2 : ServerState :=
            { active_sessions := setKey st.active_sessions session_id session2
              chat_history := setKey st.chat_history session_id hist2 }
          Except.ok
            ({ response := ai_response
               session_id := session_id
               question_number := session2.current_question }, st2)

/-- `get_interview_status`: 404 when the session id is absent; otherwise a
pure read returning the status payload, with `completion_percentage =
min(100, current_question / 5 * 100)` over a fixed total of 5 questions. The
unchanged state is returned to make the absence of mutation explicit. -/
def get_interview_status (st : ServerState) (session_id : String) :
    Except HTTPError (StatusResponse × ServerState) :=
  match lookupKey st.active_sessions session_id with
  | none => Except.error { status_code := 404, detail := "Session not found" }
  | some session =>
      let messages := (lookupKey st.chat_history session_id).getD []
      Except.ok
        ({ session_id := session_id
           status := session.status
           progress :=
             { current_question := session.current_question
               total_questions := 5
               completion_percentage :=
                 min 100 ((session.current_question : ℚ) / 5 * 100) }
           started_at := session.started_at
           candidate_email := session.candidate_email
           message_count := messages.length }, st)

/-- `generate_report`: 404 when the session id is absent; otherwise builds
the report prompt from the session, asks the LLM, then assigns status
"completed" and `completed_at = datetime.now().isoformat()` (on every call),
and returns the report payload. `completedTs` and `generatedTs` stand for
the two `datetime.now()` readings. The local `messages` of the Python code
is computed but never used, so it does not appear here. -/
def generate_report (st : ServerState) (session_id completedTs generatedTs : String)
    (llm : OllamaOutcome) : Except HTTPError (ReportResponse × ServerState) :=
  match lookupKey st.active_sessions session_id with
  | none => Except.error { status_code := 404, detail := "Session not found" }
  | some session =>
      let report_content :=
        generate_response true (reportPrompt session.candidate_email session.current_question) llm
      let session2 := { session with status := "completed", completed_at := some completedTs }
      let st2 : ServerState :=
        { active_sessions := setKey st.active_sessions session_id session2
          chat_history := st.chat_history }
      Except.ok
        ({ session_id := session_id
           candidate_email := session.candidate_email
           status := "completed"
           report := report_content
           questions_answered := session.current_question
           generated_at := generatedTs }, st2)

/-! ### Uniform operation step, for invariants ranging over all operations -/

/-- One invocation of any of the four handlers, with all of its
non-deterministic inputs. -/
inductive Operation where
  | start (session_id candidate_email candidate_name now : String) (llm : OllamaOutcome)
  | chat (session_id message userTs aiTs : String) (llm : OllamaOutcome)
  | status (session_id : String)
  | report (session_id completedTs generatedTs : String) (llm : OllamaOutcome)
deriving DecidableEq, Repr

/-- The module state after running one operation: the post-call state on
success, the unchanged state when the handler raised an `HTTPException`
before mutating anything (which is the only way any of the handlers errors). -/
def applyOp (st : ServerState) : Operation → ServerState
  | Operation.start session_id candidate_email candidate_name now llm =>
      match start_interview st session_id candidate_email candidate_name now llm with
      | Except.ok (_, st2) => st2
      | Except.error _ => st
  | Operation.chat session_id message userTs aiTs llm =>
      match handle_chat_message st session_id message userTs aiTs llm with
      | Except.ok (_, st2) => st2
      | Except.error _ => st
  | Operation.status session_id =>
      match get_interview_status st session_id with
      | Except.ok (_, st2) => st2
      | Except.error _ => st
  | Operation.report session_id completedTs generatedTs llm =>
      match generate_report st session_id completedTs generatedTs llm with
      | Except.ok (_, st2) => st2
      | Except.error _ => st

/-- A `start` operation only ever runs with a fresh `uuid4()` identifier;
collisions of the 128-bit generator are assumed away, as the specification
does. Other operations carry no freshness obligation. -/
def opFreshOk (st : ServerState) : Operation → Prop
  | Operation.start session_id _ _ _ _ => lookupKey st.active_sessions session_id = none
  | _ => True

/-- One chat turn's request data: message and the two timestamp readings and
the network outcome of its LLM call. -/
structure ChatTurnInput where
  message : String
  userTs : String
  aiTs : String
  llm : OllamaOutcome
deriving DecidableEq, Repr

/-- Runs a sequence of `handle_chat_message` calls against one session,
stopping (state unchanged from that point) if a call fails. -/
def runChatTurns (session_id : String) : ServerState → List ChatTurnInput → ServerState
  | st, [] => st
  | st, turn :: rest =>
      match handle_chat_message st session_id turn.message turn.userTs turn.aiTs turn.llm with
      | Except.ok (_, st2) => runChatTurns session_id st2 rest
      | Except.error _ => st

/-! ### Basic facts about the embedded dicts -/

/-- Assigning a key and then reading it yields the assigned value. -/
theorem lookupKey_setKey_same {α : Type} (m : List (String × α)) (k : String) (v : α) :
    lookupKey (setKey m k v) k = some v := by
  induction m with
  | nil => simp [setKey, lookupKey]
  | cons p rest ih =>
      obtain ⟨k2, v2⟩ := p
      by_cases h : k2 = k
      · simp [setKey, lookupKey, h]
      · simp [setKey, lookupKey, h, ih]

/-- Assigning one key leaves every other key's value unchanged. -/
theorem lookupKey_setKey_other {α : Type} (m : List (String × α)) (k k2 : String) (v : α)
    (h : k2 ≠ k) : lookupKey (setKey m k v) k2 = lookupKey m k2 := by
  induction m with
  | nil => simp [setKey, lookupKey, Ne.symm h]
  | cons p rest ih =>
      obtain ⟨k3, v3⟩ := p
      by_cases h3 : k3 = k
      · subst h3
        simp [setKey, lookupKey, Ne.symm h]
      · simp only [setKey, if_neg h3, lookupKey]
        by_cases h4 : k3 = k2
        · simp [h4]
        · simp [h4, ih]

/-! ### Concrete sample data, used to instantiate the theorems -/

/-- A session as `start_interview` creates it. -/
def sampleSession : SessionData :=
  { session_id := "s1"
    candidate_email := "a@b.com"
    candidate_name := "Test Candidate"
    status := "active"
    started_at := "2025-09-24T01:00:00"
    current_question := 0
    completed_at := none }

/-- A session after three chat turns and a report call. -/
def completedSession : SessionData :=
  { sampleSession with status := "completed", current_question := 3 }

/-- A server state holding one freshly started session. -/
def sampleState : ServerState :=
  { active_sessions := [("s1", sampleSession)], chat_history := [("s1", [])] }

/-- A server state holding one completed session. -/
def completedState : ServerState :=
  { active_sessions := [("s1", completedSession)], chat_history := [("s1", [])] }

/-! ### Claim C1 (corrected) -/

/-- Claim C1, counterexample: on a timeout, `generate_response` does not
return the keyword-matched fallback — the prompt "vlookup" would select the
canned pivot-table question, but the timeout branch returns its own fixed
apology string instead. -/
theorem generate_response_timeout_not_keyword_fallback :
    generate_response true "vlookup" OllamaOutcome.timeout ≠ fallbackResponse "vlookup" := by
  decide

/-- Claim C1, amended: for every prompt and every failure mode of the
outbound LLM call (timeout, connection failure, non-success HTTP status, or
any other exception), `generate_response` returns a string and never
propagates the exception to the caller; on connection failure, non-success
status and other exceptions the returned string is the deterministic
fallback chosen by keyword-matching the prompt, while on timeout it is the
fixed apology string `timeoutFallbackText`. -/
theorem generate_response_failure_modes (prompt : String) (outcome : OllamaOutcome)
    (h : outcomeIsFailure outcome = true) :
    generate_response true prompt outcome =
      if outcome = OllamaOutcome.timeout then timeoutFallbackText
      else fallbackResponse prompt := by
  cases outcome with
  | timeout => rfl
  | connectError => rfl
  | otherException => rfl
  | response statusCode content =>
      have hs : (statusCode == 200) = false := by
        simpa [outcomeIsFailure] using h
      simp [generate_response, callOllama, hs]

/-- Witness for the amended claim C1, at the connection-failure outcome and
the prompt "hello". -/
theorem generate_response_failure_modes_witness :
    outcomeIsFailure OllamaOutcome.connectError = true ∧
      generate_response true "hello" OllamaOutcome.connectError =
        (if OllamaOutcome.connectError = OllamaOutcome.timeout then timeoutFallbackText
         else fallbackResponse "hello") :=
  ⟨rfl, generate_response_failure_modes "hello" OllamaOutcome.connectError rfl⟩

/-! ### Claim C7 (confirmed) -/

/-- Claim C7: the fallback response is a pure function of the prompt computed
by case-insensitive keyword matching in a fixed order — a prompt containing
"welcome" or "greet" yields the canned welcome text; otherwise one containing
"vlookup" yields the canned pivot-table question; otherwise one containing
"pivot" yields the canned formula question; any other prompt yields the
generic encouragement plus data-validation question. -/
theorem fallback_keyword_ladder (prompt : String) :
    ((strContainsSub (strLower prompt) "welcome" = true ∨
        strContainsSub (strLower prompt) "greet" = true) →
      fallbackResponse prompt = welcomeFallbackText) ∧
    (strContainsSub (strLower prompt) "welcome" = false →
      strContainsSub (strLower prompt) "greet" = false →
      strContainsSub (strLower prompt) "vlookup" = true →
      fallbackResponse prompt = vlookupFallbackText) ∧
    (strContainsSub (strLower prompt) "welcome" = false →
      strContainsSub (strLower prompt) "greet" = false →
      strContainsSub (strLower prompt) "vlookup" = false →
      strContainsSub (strLower prompt) "pivot" = true →
      fallbackResponse prompt = pivotFallbackText) ∧
    (strContainsSub (strLower prompt) "welcome" = false →
      strContainsSub (strLower prompt) "greet" = false →
      strContainsSub (strLower prompt) "vlookup" = false →
      strContainsSub (strLower prompt) "pivot" = false →
      fallbackResponse prompt = defaultFallbackText) := by
  refine ⟨?_, ?_, ?_, ?_⟩
  · rintro (h | h) <;> simp [fallbackResponse, h]
  · intro h1 h2 h3
    simp [fallbackResponse, h1, h2, h3]
  · intro h1 h2 h3 h4
    simp [fallbackResponse, h1, h2, h3, h4]
  · intro h1 h2 h3 h4
    simp [fallbackResponse, h1, h2, h3, h4]

/-- Witness for claim C7, at a prompt containing "greet". -/
theorem fallback_keyword_ladder_witness :
    fallbackResponse "Please greet the candidate" = welcomeFallbackText :=
  (fallback_keyword_ladder "Please greet the candidate").1 (Or.inr (by decide))

/-! ### Claim C8 (confirmed) -/

/-- The Python list comprehension of `parse_allowed_origins` equals
"map strip, then keep the non-empty results". -/
theorem filterMap_trim_eq (xs : List String) :
    (xs.filterMap (fun origin => if origin.trim = "" then none else some origin.trim)) =
      ((xs.map String.trim).filter (fun t => t != "")) := by
  induction xs with
  | nil => rfl
  | cons x rest ih =>
      simp only [List.filterMap_cons, List.map_cons, List.filter_cons]
      by_cases h : x.trim = ""
      · simp [h, ih]
      · simp [h, ih]

/-- Claim C8: parsing a configured allowed-origins value yields a list of
origins — a comma-separated string is split into its stripped non-empty
components, a list is kept as is, and any other (malformed) value falls back
to the fixed default pair of localhost origins, which is non-empty. -/
theorem parse_allowed_origins_spec (v : ConfigValue) :
    (∀ s, v = ConfigValue.str s →
      parse_allowed_origins v =
        ((s.split (fun c => c == ',')).map String.trim).filter (fun t => t != "")) ∧
    (∀ l, v = ConfigValue.list l → parse_allowed_origins v = l) ∧
    (v = ConfigValue.other →
      parse_allowed_origins v = ["http://localhost:3000", "http://localhost:5173"] ∧
        parse_allowed_origins v ≠ []) := by
  refine ⟨?_, ?_, ?_⟩
  · rintro s rfl
    simpa [parse_allowed_origins] using
      filterMap_trim_eq (s.split (fun c => c == ','))
  · rintro l rfl
    rfl
  · rintro rfl
    exact ⟨rfl, by decide⟩

/-- Witness for claim C8, at the string value " a ,, b ". -/
theorem parse_allowed_origins_spec_witness :
    parse_allowed_origins (ConfigValue.str " a ,, b ") =
      ((" a ,, b ".split (fun c => c == ',')).map String.trim).filter (fun t => t != "") :=
  (parse_allowed_origins_spec (ConfigValue.str " a ,, b ")).1 " a ,, b " rfl

/-! ### Claim C2 (confirmed) -/

/-- Claim C2: for every session id absent from the session store, each of
`chat_turn`, `status` and `report` fails with the 404 NotFound condition and
the detail "Session not found", never with a generic 500. -/
theorem missing_session_notfound (st : ServerState)
    (session_id message userTs aiTs completedTs generatedTs : String)
    (llm llm2 : OllamaOutcome)
    (h : lookupKey st.active_sessions session_id = none) :
    handle_chat_message st session_id message userTs aiTs llm =
        Except.error { status_code := 404, detail := "Session not found" } ∧
      get_interview_status st session_id =
        Except.error { status_code := 404, detail := "Session not found" } ∧
      generate_report st session_id completedTs generatedTs llm2 =
        Except.error { status_code := 404, detail := "Session not found" } := by
  refine ⟨?_, ?_, ?_⟩ <;>
    simp [handle_chat_message, get_interview_status, generate_report, h]

/-- Witness for claim C2, on the empty store and session id "nope". -/
theorem missing_session_notfound_witness :
    handle_chat_message ⟨[], []⟩ "nope" "m" "t1" "t2" OllamaOutcome.timeout =
      Except.error { status_code := 404, detail := "Session not found" } :=
  (missing_session_notfound ⟨[], []⟩ "nope" "m" "t1" "t2" "tc" "tg"
    OllamaOutcome.timeout OllamaOutcome.timeout rfl).1

/-! ### Claim C3 (confirmed) -/

/-- Claim C3: for every existing session, `status` returns
`completion_percentage = min(100, current_question / 5 * 100)` with
`total_questions` fixed at 5; and on a freshly started session it reports
`current_question = 0` and `completion_percentage = 0`. -/
theorem status_completion_formula (st : ServerState) (session_id : String)
    (session : SessionData)
    (h : lookupKey st.active_sessions session_id = some session) :
    (∃ resp, get_interview_status st session_id = Except.ok (resp, st) ∧
      resp.progress =
        { current_question := session.current_question
          total_questions := 5
          completion_percentage :=
            min 100 ((session.current_question : ℚ) / 5 * 100) }) ∧
    (∀ st0 candidate_email candidate_name now llm resp1 st1,
      start_interview st0 session_id candidate_email candidate_name now llm =
          Except.ok (resp1, st1) →
      ∃ resp, get_interview_status st1 session_id = Except.ok (resp, st1) ∧
        resp.progress =
          { current_question := 0, total_questions := 5, completion_percentage := 0 }) := by
  constructor
  · refine ⟨{ session_id := session_id
              status := session.status
              progress :=
                { current_question := session.current_question
                  total_questions := 5
                  completion_percentage :=
                    min 100 ((session.current_question : ℚ) / 5 * 100) }
              started_at := session.started_at
              candidate_email := session.candidate_email
              message_count :=
                ((lookupKey st.chat_history session_id).getD []).length },
            ?_, rfl⟩
    simp [get_interview_status, h]
  · intro st0 candidate_email candidate_name now llm resp1 st1 hstart
    simp only [start_interview, Except.ok.injEq, Prod.mk.injEq] at hstart
    obtain ⟨-, hst1⟩ := hstart
    subst hst1
    refine ⟨{ session_id := session_id
              status := "active"
              progress :=
                { current_question := 0
                  total_questions := 5
                  completion_percentage := min 100 (((0 : Nat) : ℚ) / 5 * 100) }
              started_at := now
              candidate_email := candidate_email
              message_count := 0 },
            ?_, ?_⟩
    · simp [get_interview_status, lookupKey_setKey_same]
    · simp only [Progress.mk.injEq]
      norm_num

/-- Witness for claim C3, on a state holding one freshly started session. -/
theorem status_completion_formula_witness :
    ∃ resp, get_interview_status sampleState "s1" = Except.ok (resp, sampleState) ∧
      resp.progress =
        { current_question := sampleSession.current_question
          total_questions := 5
          completion_percentage :=
            min 100 ((sampleSession.current_question : ℚ) / 5 * 100) } :=
  (status_completion_formula sampleState "s1" sampleSession rfl).1

/-! ### Claim C9 (confirmed) -/

/-- Claim C9: `status` is a pure read — whenever it succeeds, the returned
post-state (session store and transcripts alike) is exactly the input state. -/
theorem status_pure_read (st : ServerState) (session_id : String)
    (resp : StatusResponse) (st2 : ServerState)
    (h : get_interview_status st session_id = Except.ok (resp, st2)) :
    st2 = st := by
  unfold get_interview_status at h
  cases hl : lookupKey st.active_sessions session_id with
  | none =>
      rw [hl] at h
      cases h
  | some session =>
      rw [hl] at h
      simp only [Except.ok.injEq, Prod.mk.injEq] at h
      exact h.2.symm

/-- Witness for claim C9, on a state holding one freshly started session. -/
theorem status_pure_read_witness : sampleState = sampleState :=
  status_pure_read sampleState "s1"
    { session_id := "s1"
      status := sampleSession.status
      progress :=
        { current_question := sampleSession.current_question
          total_questions := 5
          completion_percentage :=
            min 100 ((sampleSession.current_question : ℚ) / 5 * 100) }
      started_at := sampleSession.started_at
      candidate_email := sampleSession.candidate_email
      message_count := ((lookupKey sampleState.chat_history "s1").getD []).length }
    sampleState (by rfl)

/-! ### Claim C10 (confirmed) -/

/-- Claim C10: `chat_turn` imposes no precondition on session status — on a
session whose status is already "completed", the call still succeeds, appends
the user and assistant messages to the transcript, and increments the question
counter past completion. -/
theorem chat_ignores_completed_status (st : ServerState)
    (session_id message userTs aiTs : String) (llm : OllamaOutcome)
    (session : SessionData) (hist : List ChatEntry)
    (h1 : lookupKey st.active_sessions session_id = some session)
    (h2 : lookupKey st.chat_history session_id = some hist)
    (_hcompleted : session.status = "completed") :
    ∃ resp st2,
      handle_chat_message st session_id message userTs aiTs llm = Except.ok (resp, st2) ∧
      lookupKey st2.chat_history session_id =
        some (hist ++
          [{ role := "user", message := message, timestamp := userTs },
           { role := "assistant", message := resp.response, timestamp := aiTs }]) ∧
      lookupKey st2.active_sessions session_id =
        some { session with current_question := session.current_question + 1 } := by
  refine ⟨{ response := generate_response true (chatResponsePrompt message) llm
            session_id := session_id
            question_number := session.current_question + 1 },
          { active_sessions :=
              setKey st.active_sessions session_id
                { session with current_question := session.current_question + 1 }
            chat_history :=
              setKey st.chat_history session_id
                ((hist ++ [{ role := "user", message := message, timestamp := userTs }]) ++
                  [{ role := "assistant"
                     message := generate_response true (chatResponsePrompt message) llm
                     timestamp := aiTs }]) },
          ?_, ?_, ?_⟩
  · simp [handle_chat_message, h1, h2]
  · simp [lookupKey_setKey_same]
  · simp [lookupKey_setKey_same]

/-- Witness for claim C10, on a state holding one completed session. -/
theorem chat_ignores_completed_status_witness :
    ∃ resp st2,
      handle_chat_message completedState "s1" "thanks" "t1" "t2"
          OllamaOutcome.connectError = Except.ok (resp, st2) ∧
      lookupKey st2.chat_history "s1" =
        some ([] ++
          [{ role := "user", message := "thanks", timestamp := "t1" },
           { role := "assistant", message := resp.response, timestamp := "t2" }]) ∧
      lookupKey st2.active_sessions "s1" =
        some { completedSession with
                current_question := completedSession.current_question + 1 } :=
  chat_ignores_completed_status completedState "s1" "thanks" "t1" "t2"
    OllamaOutcome.connectError completedSession [] rfl rfl rfl

/-! ### How one operation can change one session -/

/-- Running any single operation (with `start` given a fresh uuid, as the
128-bit generator guarantees) either leaves an existing session untouched,
increments its question counter by one (a chat turn on it), or sets its
status to "completed" together with a completion timestamp (a report on it). -/
theorem applyOp_session_cases (st : ServerState) (op : Operation) (session_id : String)
    (session : SessionData) (hfresh : opFreshOk st op)
    (h : lookupKey st.active_sessions session_id = some session) :
    ∃ session2, lookupKey (applyOp st op).active_sessions session_id = some session2 ∧
      (session2 = session ∨
       session2 = { session with current_question := session.current_question + 1 } ∨
       ∃ ts, session2 = { session with status := "completed", completed_at := some ts }) := by
  cases op with
  | start sid2 candidate_email candidate_name now llm =>
      have hne : session_id ≠ sid2 := by
        intro he
        rw [he] at h
        simp only [opFreshOk] at hfresh
        rw [hfresh] at h
        cases h
      refine ⟨session, ?_, Or.inl rfl⟩
      simp only [applyOp, start_interview]
      rw [lookupKey_setKey_other _ _ _ _ hne]
      exact h
  | chat sid2 message userTs aiTs llm =>
      by_cases he : sid2 = session_id
      · subst he
        cases hh : lookupKey st.chat_history sid2 with
        | none =>
            refine ⟨session, ?_, Or.inl rfl⟩
            simp only [applyOp, handle_chat_message, h, hh]
        | some hist =>
            refine ⟨{ session with current_question := session.current_question + 1 },
              ?_, Or.inr (Or.inl rfl)⟩
            simp only [applyOp, handle_chat_message, h, hh]
            exact lookupKey_setKey_same _ _ _
      · cases h2 : lookupKey st.active_sessions sid2 with
        | none =>
            refine ⟨session, ?_, Or.inl rfl⟩
            simp only [applyOp, handle_chat_message, h2]
            exact h
        | some s2 =>
            cases hh : lookupKey st.chat_history sid2 with
            | none =>
                refine ⟨session, ?_, Or.inl rfl⟩
                simp only [applyOp, handle_chat_message, h2, hh]
                exact h
            | some hist2 =>
                refine ⟨session, ?_, Or.inl rfl⟩
                simp only [applyOp, handle_chat_message, h2, hh]
                rw [lookupKey_setKey_other _ _ _ _ (Ne.symm he)]
                exact h
  | status sid2 =>
      refine ⟨session, ?_, Or.inl rfl⟩
      cases h2 : lookupKey st.active_sessions sid2 with
      | none =>
          simp only [applyOp, get_interview_status, h2]
          exact h
      | some s2 =>
          simp only [applyOp, get_interview_status, h2]
          exact h
  | report sid2 completedTs generatedTs llm =>
      by_cases he : sid2 = session_id
      · subst he
        refine ⟨{ session with status := "completed", completed_at := some completedTs },
          ?_, Or.inr (Or.inr ⟨completedTs, rfl⟩)⟩
        simp only [applyOp, generate_report, h]
        exact lookupKey_setKey_same _ _ _
      · cases h2 : lookupKey st.active_sessions sid2 with
        | none =>
            refine ⟨session, ?_, Or.inl rfl⟩
            simp only [applyOp, generate_report, h2]
            exact h
        | some s2 =>
            refine ⟨session, ?_, Or.inl rfl⟩
            simp only [applyOp, generate_report, h2]
            rw [lookupKey_setKey_other _ _ _ _ (Ne.symm he)]
            exact h

/-- N successful chat turns against one session add N to its question
counter (and keep both the session and its transcript present). -/
theorem runChatTurns_counter (session_id : String) (turns : List ChatTurnInput) :
    ∀ st session hist,
      lookupKey st.active_sessions session_id = some session →
      lookupKey st.chat_history session_id = some hist →
      ∃ session2 hist2,
        lookupKey (runChatTurns session_id st turns).active_sessions session_id =
            some session2 ∧
          lookupKey (runChatTurns session_id st turns).chat_history session_id =
            some hist2 ∧
          session2.current_question = session.current_question + turns.length := by
  induction turns with
  | nil =>
      intro st session hist h1 h2
      exact ⟨session, hist, h1, h2, by simp [runChatTurns]⟩
  | cons turn rest ih =>
      intro st session hist h1 h2
      have hchat : handle_chat_message st session_id turn.message turn.userTs turn.aiTs
          turn.llm =
          Except.ok
            ({ response := generate_response true (chatResponsePrompt turn.message) turn.llm
               session_id := session_id
               question_number := session.current_question + 1 },
             { active_sessions :=
                 setKey st.active_sessions session_id
                   { session with current_question := session.current_question + 1 }
               chat_history :=
                 setKey st.chat_history session_id
                   ((hist ++
                      [{ role := "user", message := turn.message, timestamp := turn.userTs }]) ++
                     [{ role := "assistant"
                        message := generate_response true (chatResponsePrompt turn.message)
                          turn.llm
                        timestamp := turn.aiTs }]) }) := by
        simp [handle_chat_message, h1, h2]
      simp only [runChatTurns, hchat]
      obtain ⟨session2, hist2, e1, e2, e3⟩ :=
        ih { active_sessions :=
               setKey st.active_sessions session_id
                 { session with current_question := session.current_question + 1 }
             chat_history :=
               setKey st.chat_history session_id
                 ((hist ++
                    [{ role := "user", message := turn.message, timestamp := turn.userTs }]) ++
                   [{ role := "assistant"
                      message := generate_response true (chatResponsePrompt turn.message)
                        turn.llm
                      timestamp := turn.aiTs }]) }
          { session with current_question := session.current_question + 1 }
          ((hist ++
             [{ role := "user", message := turn.message, timestamp := turn.userTs }]) ++
            [{ role := "assistant"
               message := generate_response true (chatResponsePrompt turn.message) turn.llm
               timestamp := turn.aiTs }])
          (lookupKey_setKey_same _ _ _) (lookupKey_setKey_same _ _ _)
      refine ⟨session2, hist2, e1, e2, ?_⟩
      have e4 : session2.current_question = session.current_question + 1 + rest.length := e3
      simp only [List.length_cons]
      omega

/-! ### Claim C4 (confirmed) -/

/-- Claim C4: every successful `chat_turn` on an existing session increments
that session's question counter by exactly one and returns the updated
counter as `question_number`; no operation ever decreases the counter; and
after N successful chat turns on a session started at counter 0, the counter
equals N. -/
theorem chat_increments_counter (st : ServerState)
    (session_id message userTs aiTs : String) (llm : OllamaOutcome)
    (session : SessionData) (hist : List ChatEntry)
    (h1 : lookupKey st.active_sessions session_id = some session)
    (h2 : lookupKey st.chat_history session_id = some hist) :
    (∃ resp st2,
        handle_chat_message st session_id message userTs aiTs llm = Except.ok (resp, st2) ∧
        lookupKey st2.active_sessions session_id =
          some { session with current_question := session.current_question + 1 } ∧
        resp.question_number = session.current_question + 1) ∧
    (∀ op, opFreshOk st op →
        ∃ session2,
          lookupKey (applyOp st op).active_sessions session_id = some session2 ∧
            session.current_question ≤ session2.current_question) ∧
    (session.current_question = 0 →
        ∀ turns, ∃ session2,
          lookupKey (runChatTurns session_id st turns).active_sessions session_id =
              some session2 ∧
            session2.current_question = turns.length) := by
  refine ⟨?_, ?_, ?_⟩
  · refine ⟨{ response := generate_response true (chatResponsePrompt message) llm
              session_id := session_id
              question_number := session.current_question + 1 },
            { active_sessions :=
                setKey st.active_sessions session_id
                  { session with current_question := session.current_question + 1 }
              chat_history :=
                setKey st.chat_history session_id
                  ((hist ++ [{ role := "user", message := message, timestamp := userTs }]) ++
                    [{ role := "assistant"
                       message := generate_response true (chatResponsePrompt message) llm
                       timestamp := aiTs }]) },
            ?_, ?_, rfl⟩
    · simp [handle_chat_message, h1, h2]
    · exact lookupKey_setKey_same _ _ _
  · intro op hfresh
    obtain ⟨session2, hl, hcase⟩ := applyOp_session_cases st op session_id session hfresh h1
    refine ⟨session2, hl, ?_⟩
    rcases hcase with rfl | rfl | ⟨ts, rfl⟩
    · exact Nat.le_refl _
    · exact Nat.le_succ _
    · exact Nat.le_refl _
  · intro hzero turns
    obtain ⟨session2, hist2, e1, _, e3⟩ :=
      runChatTurns_counter session_id turns st session hist h1 h2
    exact ⟨session2, e1, by omega⟩

/-- Witness for claim C4, one chat turn on a freshly started session. -/
theorem chat_increments_counter_witness :
    ∃ resp st2,
      handle_chat_message sampleState "s1" "I use VLOOKUP daily" "t1" "t2"
          OllamaOutcome.connectError = Except.ok (resp, st2) ∧
      lookupKey st2.active_sessions "s1" =
        some { sampleSession with
                current_question := sampleSession.current_question + 1 } ∧
      resp.question_number = sampleSession.current_question + 1 :=
  (chat_increments_counter sampleState "s1" "I use VLOOKUP daily" "t1" "t2"
    OllamaOutcome.connectError sampleSession [] rfl rfl).1

/-! ### Claim C5 (confirmed) -/

/-- Claim C5: a session's status only ever transitions from "active" to
"completed" and is never reversed — `report` on an existing session sets
status "completed", and every operation either preserves a session's status
or sets it to "completed"; in particular a "completed" status stays
"completed" forever. -/
theorem status_only_forward (st : ServerState)
    (session_id completedTs generatedTs : String) (llm : OllamaOutcome)
    (session : SessionData)
    (h : lookupKey st.active_sessions session_id = some session) :
    (∃ resp st2,
        generate_report st session_id completedTs generatedTs llm = Except.ok (resp, st2) ∧
        lookupKey st2.active_sessions session_id =
          some { session with status := "completed", completed_at := some completedTs }) ∧
    (∀ op, opFreshOk st op →
        ∃ session2,
          lookupKey (applyOp st op).active_sessions session_id = some session2 ∧
            (session2.status = session.status ∨ session2.status = "completed") ∧
            (session.status = "completed" → session2.status = "completed")) := by
  constructor
  · refine ⟨{ session_id := session_id
              candidate_email := session.candidate_email
              status := "completed"
              report :=
                generate_response true
                  (reportPrompt session.candidate_email session.current_question) llm
              questions_answered := session.current_question
              generated_at := generatedTs },
            { active_sessions :=
                setKey st.active_sessions session_id
                  { session with status := "completed", completed_at := some completedTs }
              chat_history := st.chat_history },
            ?_, ?_⟩
    · simp [generate_report, h]
    · exact lookupKey_setKey_same _ _ _
  · intro op hfresh
    obtain ⟨session2, hl, hcase⟩ := applyOp_session_cases st op session_id session hfresh h
    refine ⟨session2, hl, ?_, ?_⟩
    · rcases hcase with rfl | rfl | ⟨ts, rfl⟩
      · exact Or.inl rfl
      · exact Or.inl rfl
      · exact Or.inr rfl
    · intro hc
      rcases hcase with rfl | rfl | ⟨ts, rfl⟩
      · exact hc
      · exact hc
      · rfl

/-- Witness for claim C5: the first report call on a fresh session. -/
theorem status_only_forward_witness :
    ∃ resp st2,
      generate_report sampleState "s1" "T1" "G1" OllamaOutcome.otherException =
          Except.ok (resp, st2) ∧
      lookupKey st2.active_sessions "s1" =
        some { sampleSession with status := "completed", completed_at := some "T1" } :=
  (status_only_forward sampleState "s1" "T1" "G1" OllamaOutcome.otherException
    sampleSession rfl).1

/-! ### Claim C6 (corrected) -/

/-- The state after a first report call on the sample session, with
completion timestamp "T1". -/
def stAfterFirstReport : ServerState :=
  applyOp sampleState (Operation.report "s1" "T1" "G1" OllamaOutcome.otherException)

/-- The state after a second report call on the same session, with
completion timestamp "T2". -/
def stAfterSecondReport : ServerState :=
  applyOp stAfterFirstReport (Operation.report "s1" "T2" "G2" OllamaOutcome.otherException)

/-- Claim C6, counterexample: the completion timestamp is not set exactly
once — the first report call sets it to "T1", but a second report call on
the same session overwrites it to "T2". -/
theorem completed_at_changes_on_second_report :
    lookupKey stAfterFirstReport.active_sessions "s1" =
        some { sampleSession with status := "completed", completed_at := some "T1" } ∧
      lookupKey stAfterSecondReport.active_sessions "s1" =
        some { sampleSession with status := "completed", completed_at := some "T2" } ∧
      (some "T2" : Option String) ≠ some "T1" := by
  refine ⟨rfl, rfl, by decide⟩

/-- Claim C6, amended: every report call on an existing session assigns the
completion timestamp to that call's current time, overwriting any value a
previous report call stored; the timestamp therefore reflects the most
recent report call, not only the first. -/
theorem report_overwrites_completed_at (st : ServerState)
    (session_id completedTs generatedTs : String) (llm : OllamaOutcome)
    (session : SessionData)
    (h : lookupKey st.active_sessions session_id = some session) :
    ∃ resp st2,
      generate_report st session_id completedTs generatedTs llm = Except.ok (resp, st2) ∧
      lookupKey st2.active_sessions session_id =
        some { session with status := "completed", completed_at := some completedTs } := by
  refine ⟨{ session_id := session_id
            candidate_email := session.candidate_email
            status := "completed"
            report :=
              generate_response true
                (reportPrompt session.candidate_email session.current_question) llm
            questions_answered := session.current_question
            generated_at := generatedTs },
          { active_sessions :=
              setKey st.active_sessions session_id
                { session with status := "completed", completed_at := some completedTs }
            chat_history := st.chat_history },
          ?_, ?_⟩
  · simp [generate_report, h]
  · exact lookupKey_setKey_same _ _ _

/-- Witness for the amended claim C6: a second report call, on a session
whose completion timestamp is already "T1", assigns "T2". -/
theorem report_overwrites_completed_at_witness :
    ∃ resp st2,
      generate_report stAfterFirstReport "s1" "T2" "G2" OllamaOutcome.otherException =
          Except.ok (resp, st2) ∧
      lookupKey st2.active_sessions "s1" =
        some { sampleSession with status := "completed", completed_at := some "T2" } :=
  report_overwrites_completed_at stAfterFirstReport "s1" "T2" "G2"
    OllamaOutcome.otherException
    { sampleSession with status := "completed", completed_at := some "T1" } (by rfl)

end AIExcelInterviewer
